import Mathlib

/-!
Shallow embedding of the capture-quality, auto-capture and concern-map
code of the ski web app (source file `src/unnamed/part_001`).

Real-valued quantities (scores, brightness, pixel coordinates) are
modelled as rationals, timestamps as integers (milliseconds).  The
DOM/canvas environment (video element, `measureText`, generated ids,
`Date.now()`) is passed in as explicit parameters.
-/

set_option maxRecDepth 8000

namespace Ski

/-- Coarse face pose label (`'front' | 'left' | 'right' | 'unknown'`). -/
inductive Pose where
  | front
  | left
  | right
  | unknown
deriving DecidableEq

/-- The latest face observation (`latestFaceRef.current` in the source,
lines 366, 697, 722).  `nosePos` is the source's `noseRatio`. -/
structure FaceObs where
  found : Bool
  coverage : ℚ
  nosePos : ℚ
deriving DecidableEq

/-- Pose derivation from a face observation.  Source lines 828-836
(`captureFromCamera`) and 1623-1630 (quality sampler tick):
`face.found && face.coverage > 0 ? (noseRatio < 0.46 ? left : noseRatio > 0.54 ? right : front) : unknown`. -/
def poseOfFace (f : FaceObs) : Pose :=
  if f.found = true ∧ 0 < f.coverage then
    if f.nosePos < 0.46 then Pose.left
    else if 0.54 < f.nosePos then Pose.right
    else Pose.front
  else Pose.unknown

/-- The face-found branch of the detection loop (source lines 673-697):
bounding box of the landmarks, `fw = max(1, maxX-minX)`,
`fh = max(1, maxY-minY)`, `area = max(0, fw*fh)`,
`coverage = clamp01(area/(vw*vh))`,
`noseRatio = clamp01((noseX-minX)/max(1, maxX-minX))`. -/
def detectFaceObs (vw vh minX minY maxX maxY noseX : ℚ) : FaceObs :=
  let fw := max 1 (maxX - minX)
  let fh := max 1 (maxY - minY)
  let area := max 0 (fw * fh)
  { found := true
    coverage := max 0 (min 1 (area / (vw * vh)))
    nosePos := max 0 (min 1 ((noseX - minX) / max 1 (maxX - minX))) }

/-- The no-face branch of the detection loop (source line 722). -/
def noFaceObs : FaceObs :=
  { found := false, coverage := 0, nosePos := 0.5 }

/-- `brightCentered = Math.max(0, Math.min(1, 1 - Math.abs(brightness - 0.55) / 0.55))`
(source line 1632). -/
def brightCentered (brightness : ℚ) : ℚ :=
  max 0 (min 1 (1 - |brightness - 0.55| / 0.55))

/-- `sizeScore = Math.min(1, faceCoverage / 0.2)` (source line 1633). -/
def sizeScore (faceCoverage : ℚ) : ℚ :=
  min 1 (faceCoverage / 0.2)

/-- `score = face.found ? 0.45*sharpness + 0.35*brightCentered + 0.2*sizeScore : 0`
(source line 1634). -/
def aggregateScore (found : Bool) (sharpness brightness faceCoverage : ℚ) : ℚ :=
  if found then
    0.45 * sharpness + 0.35 * brightCentered brightness + 0.2 * sizeScore faceCoverage
  else 0

def warnLowBrightness : String := "Lighting is low — move to brighter, even light."

def warnHighBrightness : String := "Lighting is very strong — avoid overexposure."

def warnLowSharpness : String := "Hold still — image looks soft/blurry."

def warnNoFace : String := "No face detected — keep full face in frame."

def warnFaceSmall : String := "Move closer — face is too small in frame."

/-- Warning list of a sampler tick, in the push order of source lines
1636-1641. -/
def qualityWarnings (brightness sharpness : ℚ) (found : Bool) (faceCoverage : ℚ) :
    List String :=
  (if brightness < 0.25 then [warnLowBrightness] else []) ++
  (if 0.88 < brightness then [warnHighBrightness] else []) ++
  (if sharpness < 0.25 then [warnLowSharpness] else []) ++
  (if found = false then [warnNoFace] else []) ++
  (if found = true ∧ faceCoverage < 0.08 then [warnFaceSmall] else [])

/-- The sample published by `setScanQuality` each sampler tick
(source line 1643). -/
structure QualitySample where
  score : ℚ
  brightness : ℚ
  sharpness : ℚ
  faceCoverage : ℚ
  pose : Pose
  warnings : List String
deriving DecidableEq

/-- One sampler tick given the measured brightness/sharpness and the
latest face observation (source lines 1621-1643). -/
def sampleQuality (face : FaceObs) (brightness sharpness : ℚ) : QualitySample :=
  { score := aggregateScore face.found sharpness brightness face.coverage
    brightness := brightness
    sharpness := sharpness
    faceCoverage := face.coverage
    pose := poseOfFace face
    warnings := qualityWarnings brightness sharpness face.found face.coverage }

/-- One entry of the `captures` list (`{ id, blob, url, pose }` in the
source; the blob and object URL are environment resources and carry no
information relevant to the verified claims). -/
structure CaptureItem where
  id : String
  pose : Pose
deriving DecidableEq

/-- The component state read and written by the auto-capture effects:
the React state `captures`, `scanQuality`, `autoCountdown`,
`autoCapture`, `cameraOn`, `step` plus the refs `lastAutoCaptureAtRef`,
`lastCapturedPoseRef`, `latestFaceRef`. -/
structure ScanState where
  autoCapture : Bool
  cameraOn : Bool
  step : Nat
  captures : List CaptureItem
  scanQuality : QualitySample
  autoCountdown : Option Int
  lastAutoCaptureAt : Int
  lastCapturedPose : Pose
  latestFace : FaceObs
deriving DecidableEq

/-- `captureFromCamera` (source lines 824-855), successful path: the
pose is recomputed from `latestFaceRef`, `lastCapturedPoseRef` is set,
and a new item is appended to `captures`.  `id` stands for the value of
`makeId()`; the early returns for a missing video element / 2d context
/ blob are environment failures outside the captured state. -/
def captureFromCamera (s : ScanState) (id : String) : ScanState :=
  let pose := poseOfFace s.latestFace
  { s with
    lastCapturedPose := pose
    captures := s.captures ++ [{ id := id, pose := pose }] }

/-- `addFiles` (source lines 926-934): every file becomes a capture item
with pose `'unknown'`, appended to `captures`.  Each list entry stands
for one file's generated id. -/
def addFiles (s : ScanState) (files : List String) : ScanState :=
  { s with
    captures := s.captures ++ files.map (fun f => { id := f, pose := Pose.unknown }) }

/-- The auto-capture entry-gate effect (source lines 1652-1677):
reset the countdown unless enabled, under budget, good quality and a
fresh pose; start a 3-tick countdown only when additionally no countdown
is active and more than 2500 ms have passed since `lastAutoCaptureAt`. -/
def entryGate (s : ScanState) (now : Int) : ScanState :=
  if ¬(s.autoCapture = true ∧ s.cameraOn = true ∧ s.step = 1) then
    { s with autoCountdown := none }
  else if 3 ≤ s.captures.length then
    { s with autoCountdown := none }
  else if ¬(0.78 ≤ s.scanQuality.score ∧ s.scanQuality.warnings.length = 0) then
    { s with autoCountdown := none }
  else if s.scanQuality.pose ≠ Pose.unknown ∧ s.scanQuality.pose = s.lastCapturedPose then
    { s with autoCountdown := none }
  else if s.autoCountdown = none ∧ 2500 < now - s.lastAutoCaptureAt then
    { s with autoCountdown := some 3 }
  else s

/-- The 1-second countdown timer (source lines 1679-1690): fires only
while a positive countdown is active and decrements it. -/
def countdownTick (s : ScanState) : ScanState :=
  match s.autoCountdown with
  | some v => if 0 < v then { s with autoCountdown := some (v - 1) } else s
  | none => s

/-- The countdown-zero effect (source lines 1692-1713): acts only when
`autoCountdown = 0`; re-checks enablement, the 3-item budget, the good
gate and the pose gate (but not the cooldown); on success stamps
`lastAutoCaptureAt := now`, resets the countdown and captures. -/
def countdownZero (s : ScanState) (now : Int) (id : String) : ScanState :=
  if s.autoCountdown ≠ some 0 then s
  else if ¬(s.autoCapture = true ∧ s.cameraOn = true ∧ s.step = 1) ∨ 3 ≤ s.captures.length then
    { s with autoCountdown := none }
  else if ¬(0.78 ≤ s.scanQuality.score ∧ s.scanQuality.warnings.length = 0) then
    { s with autoCountdown := none }
  else if s.scanQuality.pose ≠ Pose.unknown ∧ s.scanQuality.pose = s.lastCapturedPose then
    { s with autoCountdown := none }
  else
    captureFromCamera { s with lastAutoCaptureAt := now, autoCountdown := none } id

/-- One cooperative step of the auto-capture machinery: a new quality
sample arriving (restricted by `P`), the entry-gate effect, a countdown
timer tick, or the countdown-zero effect.  `T` restricts the clock
values `Date.now()` may return during the run. -/
inductive ScanStep (P : QualitySample → Prop) (T : Int → Prop) :
    ScanState → ScanState → Prop where
  | sample {s : ScanState} {q : QualitySample} :
      P q → ScanStep P T s { s with scanQuality := q }
  | gate {s : ScanState} {now : Int} :
      T now → ScanStep P T s (entryGate s now)
  | tickDown {s : ScanState} :
      ScanStep P T s (countdownTick s)
  | zero {s : ScanState} {now : Int} {id : String} :
      T now → ScanStep P T s (countdownZero s now id)

/-- JavaScript `Math.round` on a nonnegative value: round half up. -/
def jsRound (q : ℚ) : ℤ := ⌊q + 1/2⌋

/-- The pixel coordinates visited by the centroid loops of
`heatmapAnchor` (source lines 1362-1363): `x` and `y` both advance in
steps of 2 from 0, i.e. only even coordinates are sampled. -/
def evenGrid (tw th : Nat) : Finset (Nat × Nat) :=
  (Finset.range tw ×ˢ Finset.range th).filter (fun p => p.1 % 2 = 0 ∧ p.2 % 2 = 0)

/-- `maxA`: maximum alpha over every pixel of the downsampled heatmap
(source lines 1350-1354).  `alpha x y` is the alpha byte at pixel
`(x, y)`. -/
def maxAlpha (tw th : Nat) (alpha : Nat → Nat → Nat) : Nat :=
  (Finset.range tw ×ˢ Finset.range th).sup (fun p => alpha p.1 p.2)

/-- `sum` accumulated by `centroid(minA)` (source lines 1358-1372):
total weight of the sampled pixels with alpha at least `minA`. -/
def centroidW (tw th : Nat) (alpha : Nat → Nat → Nat) (minA : Nat) : ℚ :=
  ∑ p ∈ evenGrid tw th, (if minA ≤ alpha p.1 p.2 then (alpha p.1 p.2 : ℚ) else 0)

/-- `sumX` accumulated by `centroid(minA)`: weights times `x + 0.5`. -/
def centroidSX (tw th : Nat) (alpha : Nat → Nat → Nat) (minA : Nat) : ℚ :=
  ∑ p ∈ evenGrid tw th,
    (if minA ≤ alpha p.1 p.2 then ((p.1 : ℚ) + 0.5) * (alpha p.1 p.2 : ℚ) else 0)

/-- `sumY` accumulated by `centroid(minA)`: weights times `y + 0.5`. -/
def centroidSY (tw th : Nat) (alpha : Nat → Nat → Nat) (minA : Nat) : ℚ :=
  ∑ p ∈ evenGrid tw th,
    (if minA ≤ alpha p.1 p.2 then ((p.2 : ℚ) + 0.5) * (alpha p.1 p.2 : ℚ) else 0)

/-- The inner `centroid` closure of `heatmapAnchor` (source lines
1357-1375): weighted centroid of the sampled pixels with alpha at least
`minA`, or `null` when no weight was accumulated. -/
def centroid (tw th : Nat) (alpha : Nat → Nat → Nat) (minA : Nat) : Option (ℚ × ℚ) :=
  if centroidW tw th alpha minA ≤ 0 then none
  else some (centroidSX tw th alpha minA / centroidW tw th alpha minA,
             centroidSY tw th alpha minA / centroidW tw th alpha minA)

/-- `thresh = Math.max(40, Math.round(maxA * 0.55))` (source line 1377). -/
def heatThresh (tw th : Nat) (alpha : Nat → Nat → Nat) : Nat :=
  max 40 (jsRound ((maxAlpha tw th alpha : ℚ) * 0.55)).toNat

/-- Scaling of a downsampled-centroid to canvas coordinates, clamped to
the canvas (source lines 1381-1384). -/
def anchorScale (tw th : Nat) (canvasW canvasH : ℚ) (c : ℚ × ℚ) : ℚ × ℚ :=
  (max 0 (min canvasW (c.1 / (tw : ℚ) * canvasW)),
   max 0 (min canvasH (c.2 / (th : ℚ) * canvasH)))

/-- `heatmapAnchor` (source lines 1327-1387), for a decoded heatmap of
downsampled size `tw × th` with alpha bytes `alpha`: `null` when
`maxA ≤ 0`, otherwise `centroid(thresh) ?? centroid(1)` scaled and
clamped to canvas coordinates.  The per-id cache, missing-image and
`getImageData` failure paths are environment concerns outside the pixel
computation. -/
def heatmapAnchor (tw th : Nat) (alpha : Nat → Nat → Nat) (canvasW canvasH : ℚ) :
    Option (ℚ × ℚ) :=
  if maxAlpha tw th alpha = 0 then none
  else
    match (centroid tw th alpha (heatThresh tw th alpha)).orElse
        (fun _ => centroid tw th alpha 1) with
    | none => none
    | some c => some (anchorScale tw th canvasW canvasH c)

/-- Midpoint of two anchor points (`avg2` in the source). -/
def avg2 (a b : ℚ × ℚ) : ℚ × ℚ := ((a.1 + b.1) / 2, (a.2 + b.2) / 2)

/-- The fixed landmark-derived face anchors used as fallbacks by
`metricAnchor` (nose, cheeks, forehead, under-eyes, eye corners, face
centroid). -/
structure FaceAnchors where
  nose : ℚ × ℚ
  leftCheek : ℚ × ℚ
  rightCheek : ℚ × ℚ
  forehead : ℚ × ℚ
  leftUnderEye : ℚ × ℚ
  rightUnderEye : ℚ × ℚ
  leftEyeOuter : ℚ × ℚ
  rightEyeOuter : ℚ × ℚ
  cx : ℚ
  cy : ℚ

/-- `metricAnchor` (source lines 1389-1399): the heatmap anchor when it
exists, otherwise the fixed landmark-relative fallback for the metric. -/
def metricAnchor (hm : Option (ℚ × ℚ)) (id : String) (fa : FaceAnchors) : ℚ × ℚ :=
  match hm with
  | some p => p
  | none =>
    if id = "oiliness" then fa.nose
    else if id = "redness" then avg2 fa.leftCheek fa.rightCheek
    else if id = "uneven_tone" then fa.forehead
    else if id = "texture" then avg2 fa.nose fa.rightCheek
    else if id = "puffy_eyes" then avg2 fa.leftUnderEye fa.rightUnderEye
    else if id = "wrinkles" then avg2 fa.forehead (avg2 fa.leftEyeOuter fa.rightEyeOuter)
    else (fa.cx, fa.cy)

/-- One callout item as far as layout is concerned: its anchor point and
its label text (source lines 1401-1414). -/
structure Callout where
  anchorX : ℚ
  anchorY : ℚ
  text : String
deriving DecidableEq

/-- A placed callout box: left edge, top edge, width (the height is the
fixed `boxH`). -/
structure PlacedBox where
  bx : ℚ
  yTop : ℚ
  bw : ℚ
deriving DecidableEq

/-- `pad = 10` (source line 1435). -/
def pad : ℚ := 10

/-- `boxH = 28` (source line 1436). -/
def boxH : ℚ := 28

/-- `gap = 8` (source line 1437). -/
def gap : ℚ := 8

/-- `margin = 10` (source line 1439). -/
def margin : ℚ := 10

/-- `maxBoxW = Math.min(280, Math.max(160, fw * 0.44))` (source line 1438). -/
def maxBoxW (fw : ℚ) : ℚ := min 280 (max 160 (fw * 0.44))

/-- `colOffset = Math.max(14, fw * 0.06)` (source line 1440). -/
def colOffset (fw : ℚ) : ℚ := max 14 (fw * 0.06)

/-- Layout column side. -/
inductive Side where
  | left
  | right
deriving DecidableEq

/-- The environment of the callout layout: canvas size, face bounding
box (`minX`, `maxX`, width `fw`) and the canvas text measurer. -/
structure LayoutEnv where
  canvasW : ℚ
  canvasH : ℚ
  minX : ℚ
  maxX : ℚ
  fw : ℚ
  measure : String → ℚ

/-- Box width of one callout:
`bw = Math.max(140, Math.min(maxBoxW, tw + 22 + pad))` (source line 1497). -/
def calloutBoxW (env : LayoutEnv) (c : Callout) : ℚ :=
  max 140 (min (maxBoxW env.fw) (env.measure c.text + 22 + pad))

/-- Horizontal box position: pushed outward of the face bounding box and
clamped to the canvas (source lines 1499-1501). -/
def calloutBoxX (env : LayoutEnv) (side : Side) (bw : ℚ) : ℚ :=
  let bxRaw := if side = Side.left then env.minX - bw - colOffset env.fw
               else env.maxX + colOffset env.fw
  max margin (min (env.canvasW - bw - margin) bxRaw)

/-- The anchor-centered vertical position clamped to the image bounds
(source lines 1503-1504). -/
def clampTop (env : LayoutEnv) (anchorY : ℚ) : ℚ :=
  max margin (min (env.canvasH - boxH - margin) (anchorY - boxH / 2))

/-- Vertical placement of one box (source lines 1503-1506): clamp to the
image bounds, push below the previous box plus the gap, then clamp to
the bottom bound again.  `none` models the initial `lastY = -Infinity`,
for which the push branch `by <= lastY + boxH + gap` is never taken. -/
def placeY (env : LayoutEnv) : Option ℚ → ℚ → ℚ
  | none, anchorY =>
    let by0 := clampTop env anchorY
    if env.canvasH - boxH - margin < by0 then env.canvasH - boxH - margin else by0
  | some lastY, anchorY =>
    let by0 := clampTop env anchorY
    let by1 := if by0 ≤ lastY + boxH + gap then lastY + boxH + gap else by0
    if env.canvasH - boxH - margin < by1 then env.canvasH - boxH - margin else by1

/-- The loop body of `placeColumn` (source lines 1493-1511), carrying
`lastY` through the column. -/
def placeColumnGo (env : LayoutEnv) (side : Side) :
    Option ℚ → List Callout → List PlacedBox
  | _, [] => []
  | lastY, c :: rest =>
    let bw := calloutBoxW env c
    let yv := placeY env lastY c.anchorY
    { bx := calloutBoxX env side bw, yTop := yv, bw := bw } ::
      placeColumnGo env side (some yv) rest

/-- `placeColumn` (source lines 1493-1511) applied to a column's items. -/
def placeColumn (env : LayoutEnv) (side : Side) (items : List Callout) : List PlacedBox :=
  placeColumnGo env side none items

/-- The top-to-bottom sort applied to each column before placement
(source lines 1451-1452); JavaScript's `sort` is stable, as is
insertion sort. -/
def sortCallouts (items : List Callout) : List Callout :=
  List.insertionSort (fun a b => a.anchorY ≤ b.anchorY) items

/-- Disjointness of the vertical intervals `[yTop, yTop + boxH]` of two
placed boxes. -/
def vDisjoint (a b : PlacedBox) : Prop :=
  a.yTop + boxH < b.yTop ∨ b.yTop + boxH < a.yTop

instance : DecidablePred fun p : PlacedBox × PlacedBox => vDisjoint p.1 p.2 := by
  intro p
  unfold vDisjoint
  infer_instance

instance (a b : PlacedBox) : Decidable (vDisjoint a b) := by
  unfold vDisjoint
  infer_instance

/-! Concrete inputs used to evaluate the definitions. -/

/-- A sample that passes the good gate with pose `left`. -/
def qGoodLeft : QualitySample :=
  { score := 0.8, brightness := 0.5, sharpness := 0.9, faceCoverage := 0.25,
    pose := Pose.left, warnings := [] }

/-- A sample that passes the good gate with pose `front`. -/
def qGoodFront : QualitySample :=
  { score := 0.8, brightness := 0.5, sharpness := 0.9, faceCoverage := 0.25,
    pose := Pose.front, warnings := [] }

/-- A front-facing face observation. -/
def faceFront : FaceObs := { found := true, coverage := 0.25, nosePos := 0.5 }

/-- Three already-present capture items. -/
def caps3 : List CaptureItem :=
  [{ id := "a", pose := Pose.front }, { id := "b", pose := Pose.left },
   { id := "c", pose := Pose.right }]

/-- Countdown-at-zero state: good quality, fresh pose, but only 1000 ms
after the last auto capture. -/
def sC2 : ScanState :=
  { autoCapture := true, cameraOn := true, step := 1, captures := [],
    scanQuality := qGoodLeft, autoCountdown := some 0, lastAutoCaptureAt := 0,
    lastCapturedPose := Pose.front, latestFace := faceFront }

/-- Idle state whose current sample repeats the last captured pose. -/
def sC3 : ScanState :=
  { autoCapture := true, cameraOn := true, step := 1, captures := [],
    scanQuality := qGoodFront, autoCountdown := none, lastAutoCaptureAt := 0,
    lastCapturedPose := Pose.front, latestFace := faceFront }

/-- Idle state right after an auto capture at time 10000. -/
def sC4 : ScanState :=
  { autoCapture := true, cameraOn := true, step := 1, captures := [],
    scanQuality := qGoodLeft, autoCountdown := none, lastAutoCaptureAt := 10000,
    lastCapturedPose := Pose.front, latestFace := faceFront }

/-- State at the 3-item budget with a countdown at zero. -/
def sC5 : ScanState :=
  { autoCapture := true, cameraOn := true, step := 1, captures := caps3,
    scanQuality := qGoodLeft, autoCountdown := some 0, lastAutoCaptureAt := 0,
    lastCapturedPose := Pose.unknown, latestFace := faceFront }

/-- A 100 px tall canvas: the bottom bound for box tops is
`100 - 28 - 10 = 62`. -/
def envShort : LayoutEnv :=
  { canvasW := 500, canvasH := 100, minX := 200, maxX := 300, fw := 100,
    measure := fun _ => 50 }

/-- Two callouts anchored near the bottom edge of `envShort`. -/
def itemsShort : List Callout :=
  [{ anchorX := 250, anchorY := 95, text := "A: 1" },
   { anchorX := 250, anchorY := 95, text := "B: 2" }]

/-- A 1000 px tall canvas with plenty of room. -/
def envTall : LayoutEnv :=
  { canvasW := 800, canvasH := 1000, minX := 300, maxX := 500, fw := 200,
    measure := fun _ => 50 }

/-- Two well-separated callouts on `envTall`. -/
def itemsTall : List Callout :=
  [{ anchorX := 250, anchorY := 100, text := "A: 1" },
   { anchorX := 250, anchorY := 200, text := "B: 2" }]

/-- A 160×1 heatmap whose only opaque pixel sits at the odd column 1. -/
def alphaOddCE : Nat → Nat → Nat := fun x _ => if x = 1 then 255 else 0

/-- A 160×1 heatmap with one faint pixel (alpha 10) at the origin. -/
def alphaDim : Nat → Nat → Nat := fun x y => if x = 0 ∧ y = 0 then 10 else 0

/-! Theorems. -/

/-- C6: for all brightness, sharpness, faceCoverage in [0,1]³ the
aggregated score equals
`found ? 0.45*sharpness + 0.35*max(0, 1-|brightness-0.55|/0.55) + 0.20*min(1, faceCoverage/0.20) : 0`
(the spec's formula, without the redundant upper clamp the code puts on
`brightCentered`), lies in [0,1], and is 0 whenever `found = false`. -/
theorem score_formula_and_range (found : Bool) (brightness sharpness faceCoverage : ℚ)
    (hb0 : 0 ≤ brightness) (hb1 : brightness ≤ 1)
    (hs0 : 0 ≤ sharpness) (hs1 : sharpness ≤ 1)
    (hf0 : 0 ≤ faceCoverage) (hf1 : faceCoverage ≤ 1) :
    aggregateScore found sharpness brightness faceCoverage =
      (if found then
        0.45 * sharpness + 0.35 * max 0 (1 - |brightness - 0.55| / 0.55) +
          0.2 * min 1 (faceCoverage / 0.2)
      else 0)
    ∧ 0 ≤ aggregateScore found sharpness brightness faceCoverage
    ∧ aggregateScore found sharpness brightness faceCoverage ≤ 1
    ∧ (found = false → aggregateScore found sharpness brightness faceCoverage = 0) := by
  have hdiv : 0 ≤ |brightness - 0.55| / 0.55 :=
    div_nonneg (abs_nonneg _) (by norm_num)
  have hbc_eq : brightCentered brightness = max 0 (1 - |brightness - 0.55| / 0.55) := by
    unfold brightCentered
    rw [min_eq_right (by linarith)]
  have hbc0 : 0 ≤ brightCentered brightness := le_max_left 0 _
  have hbc1 : brightCentered brightness ≤ 1 := by
    unfold brightCentered
    exact max_le (by norm_num) (min_le_left _ _)
  have hss0 : 0 ≤ sizeScore faceCoverage := by
    unfold sizeScore
    exact le_min (by norm_num) (by positivity)
  have hss1 : sizeScore faceCoverage ≤ 1 := min_le_left _ _
  refine ⟨?_, ?_, ?_, ?_⟩
  · cases found <;> simp [aggregateScore, hbc_eq, sizeScore]
  · cases found <;> simp [aggregateScore] <;> linarith
  · cases found <;> simp [aggregateScore] <;> linarith
  · intro h
    subst h
    simp [aggregateScore]

/-- C6 witness: at `brightness = 0.55`, `sharpness = 0.9`,
`faceCoverage = 0.25`, `found = true` the score is in [0,1]. -/
theorem score_formula_and_range_witness :
    0 ≤ aggregateScore true 0.9 0.55 0.25 ∧ aggregateScore true 0.9 0.55 0.25 ≤ 1 :=
  ⟨(score_formula_and_range true 0.55 0.9 0.25 (by norm_num) (by norm_num) (by norm_num)
      (by norm_num) (by norm_num) (by norm_num)).2.1,
   (score_formula_and_range true 0.55 0.9 0.25 (by norm_num) (by norm_num) (by norm_num)
      (by norm_num) (by norm_num) (by norm_num)).2.2.1⟩

/-- C7: pose is `'unknown'` whenever no face is found; for found
observations (which the detection loop always produces with positive
coverage, third conjunct) the pose is the pure function of `noseRatio`
with thresholds 0.46 / 0.54, and the boundary inputs 0.45, 0.46, 0.5,
0.54, 0.55 map to left, front, front, front, right. -/
theorem pose_classification :
    (∀ f : FaceObs, f.found = false → poseOfFace f = Pose.unknown)
    ∧ (∀ f : FaceObs, f.found = true → 0 < f.coverage →
        poseOfFace f =
          (if f.nosePos < 0.46 then Pose.left
           else if 0.54 < f.nosePos then Pose.right
           else Pose.front))
    ∧ (∀ vw vh minX minY maxX maxY noseX : ℚ, 0 < vw → 0 < vh →
        0 < (detectFaceObs vw vh minX minY maxX maxY noseX).coverage)
    ∧ poseOfFace { found := true, coverage := 1, nosePos := 0.45 } = Pose.left
    ∧ poseOfFace { found := true, coverage := 1, nosePos := 0.46 } = Pose.front
    ∧ poseOfFace { found := true, coverage := 1, nosePos := 0.5 } = Pose.front
    ∧ poseOfFace { found := true, coverage := 1, nosePos := 0.54 } = Pose.front
    ∧ poseOfFace { found := true, coverage := 1, nosePos := 0.55 } = Pose.right := by
  refine ⟨?_, ?_, ?_, ?_, ?_, ?_, ?_, ?_⟩
  · intro f h
    unfold poseOfFace
    rw [if_neg]
    simp [h]
  · intro f h1 h2
    unfold poseOfFace
    rw [if_pos ⟨h1, h2⟩]
  · intro vw vh minX minY maxX maxY noseX hvw hvh
    have hfw : (1 : ℚ) ≤ max 1 (maxX - minX) := le_max_left 1 _
    have hfh : (1 : ℚ) ≤ max 1 (maxY - minY) := le_max_left 1 _
    have hmul : (1 : ℚ) ≤ max 1 (maxX - minX) * max 1 (maxY - minY) := by nlinarith
    have harea : (1 : ℚ) ≤ max 0 (max 1 (maxX - minX) * max 1 (maxY - minY)) :=
      le_trans hmul (le_max_right 0 _)
    have hpos : 0 < max 0 (max 1 (maxX - minX) * max 1 (maxY - minY)) / (vw * vh) :=
      div_pos (lt_of_lt_of_le one_pos harea) (mul_pos hvw hvh)
    simp only [detectFaceObs]
    exact lt_max_iff.mpr (Or.inr (lt_min one_pos hpos))
  · norm_num [poseOfFace]
  · norm_num [poseOfFace]
  · norm_num [poseOfFace]
  · norm_num [poseOfFace]
  · norm_num [poseOfFace]

/-- C7 witness: the no-face observation classifies as `'unknown'` and a
concrete detection-loop observation has positive coverage. -/
theorem pose_classification_witness :
    poseOfFace noFaceObs = Pose.unknown
    ∧ 0 < (detectFaceObs 720 720 100 100 300 300 200).coverage :=
  ⟨pose_classification.1 noFaceObs rfl,
   pose_classification.2.2.1 720 720 100 100 300 300 200 (by norm_num) (by norm_num)⟩

/-- C9: the warning list contains each message exactly when its
threshold condition holds — low brightness iff `brightness < 0.25`, high
brightness iff `brightness > 0.88`, low sharpness iff
`sharpness < 0.25`, no-face iff `found = false`, face-too-small iff
`found ∧ faceCoverage < 0.08`; the warning function does not read the
score at all, and co-occurring warnings are all reported (last
conjunct). -/
theorem warning_thresholds (brightness sharpness : ℚ) (found : Bool) (faceCoverage : ℚ) :
    (warnLowBrightness ∈ qualityWarnings brightness sharpness found faceCoverage ↔
      brightness < 0.25)
    ∧ (warnHighBrightness ∈ qualityWarnings brightness sharpness found faceCoverage ↔
      0.88 < brightness)
    ∧ (warnLowSharpness ∈ qualityWarnings brightness sharpness found faceCoverage ↔
      sharpness < 0.25)
    ∧ (warnNoFace ∈ qualityWarnings brightness sharpness found faceCoverage ↔
      found = false)
    ∧ (warnFaceSmall ∈ qualityWarnings brightness sharpness found faceCoverage ↔
      found = true ∧ faceCoverage < 0.08)
    ∧ qualityWarnings 0.1 0.1 true 0.05 =
      [warnLowBrightness, warnLowSharpness, warnFaceSmall] := by
  have d12 : warnLowBrightness ≠ warnHighBrightness := by decide
  have d13 : warnLowBrightness ≠ warnLowSharpness := by decide
  have d14 : warnLowBrightness ≠ warnNoFace := by decide
  have d15 : warnLowBrightness ≠ warnFaceSmall := by decide
  have d23 : warnHighBrightness ≠ warnLowSharpness := by decide
  have d24 : warnHighBrightness ≠ warnNoFace := by decide
  have d25 : warnHighBrightness ≠ warnFaceSmall := by decide
  have d34 : warnLowSharpness ≠ warnNoFace := by decide
  have d35 : warnLowSharpness ≠ warnFaceSmall := by decide
  have d45 : warnNoFace ≠ warnFaceSmall := by decide
  have e12 := Ne.symm d12
  have e13 := Ne.symm d13
  have e14 := Ne.symm d14
  have e15 := Ne.symm d15
  have e23 := Ne.symm d23
  have e24 := Ne.symm d24
  have e25 := Ne.symm d25
  have e34 := Ne.symm d34
  have e35 := Ne.symm d35
  have e45 := Ne.symm d45
  refine ⟨?_, ?_, ?_, ?_, ?_, ?_⟩
  · unfold qualityWarnings
    split_ifs <;> simp_all
  · unfold qualityWarnings
    split_ifs <;> simp_all
  · unfold qualityWarnings
    split_ifs <;> simp_all
  · unfold qualityWarnings
    split_ifs <;> simp_all
  · unfold qualityWarnings
    split_ifs <;> simp_all
  · norm_num [qualityWarnings]

/-- C10: the 3-item budget is enforced only by the auto-capture gates:
`captureFromCamera` and `addFiles` append unconditionally, so the
capture list can exceed 3 items through the manual paths. -/
theorem manual_capture_unbudgeted (s : ScanState) (id : String) (files : List String) :
    (captureFromCamera s id).captures =
      s.captures ++ [{ id := id, pose := poseOfFace s.latestFace }]
    ∧ (captureFromCamera s id).captures.length = s.captures.length + 1
    ∧ (addFiles s files).captures =
      s.captures ++ files.map (fun f => { id := f, pose := Pose.unknown })
    ∧ (addFiles s files).captures.length = s.captures.length + files.length
    ∧ (3 ≤ s.captures.length →
        3 < (captureFromCamera s id).captures.length
        ∧ 3 ≤ (addFiles s files).captures.length) := by
  refine ⟨rfl, by simp [captureFromCamera], rfl, by simp [addFiles], ?_⟩
  intro h
  constructor
  · simp [captureFromCamera]
    omega
  · simp [addFiles]
    omega

/-- C10 witness: from a state already holding 3 captures, a manual
capture makes it 4 and an upload keeps it at least 3. -/
theorem manual_capture_unbudgeted_witness :
    3 < (captureFromCamera sC5 "d").captures.length
    ∧ 3 ≤ (addFiles sC5 []).captures.length :=
  (manual_capture_unbudgeted sC5 "d" []).2.2.2.2 (by simp [sC5, caps3])

/-- The entry-gate effect only ever writes `autoCountdown`. -/
theorem entryGate_fields (s : ScanState) (now : Int) :
    (entryGate s now).captures = s.captures
    ∧ (entryGate s now).scanQuality = s.scanQuality
    ∧ (entryGate s now).lastCapturedPose = s.lastCapturedPose
    ∧ (entryGate s now).lastAutoCaptureAt = s.lastAutoCaptureAt := by
  unfold entryGate
  split_ifs <;> exact ⟨rfl, rfl, rfl, rfl⟩

/-- When the current pose is known and equals the last captured pose,
the entry gate leaves no countdown behind. -/
theorem entryGate_none_of_pose (s : ScanState) (now : Int)
    (h1 : s.scanQuality.pose ≠ Pose.unknown)
    (h2 : s.scanQuality.pose = s.lastCapturedPose) :
    (entryGate s now).autoCountdown = none := by
  unfold entryGate
  split_ifs with ha hb hc hd he
  any_goals rfl
  all_goals exact absurd ⟨h1, h2⟩ hd

/-- Within the cooldown window the entry gate cannot start a countdown. -/
theorem entryGate_none_of_cooldown (s : ScanState) (now : Int)
    (h1 : s.autoCountdown = none) (h2 : ¬(2500 < now - s.lastAutoCaptureAt)) :
    (entryGate s now).autoCountdown = none := by
  unfold entryGate
  split_ifs with ha hb hc hd he
  any_goals rfl
  · exact absurd he.2 h2
  · exact h1

/-- At the 3-item budget the entry gate cannot start a countdown. -/
theorem entryGate_none_of_budget (s : ScanState) (now : Int)
    (h : 3 ≤ s.captures.length) :
    (entryGate s now).autoCountdown = none := by
  unfold entryGate
  split_ifs with ha hb hc hd he
  any_goals rfl
  all_goals exact absurd h hb

/-- The countdown timer does nothing while no countdown is active. -/
theorem countdownTick_none (s : ScanState) (h : s.autoCountdown = none) :
    countdownTick s = s := by
  unfold countdownTick
  rw [h]

/-- The countdown timer only ever writes `autoCountdown`. -/
theorem countdownTick_fields (s : ScanState) :
    (countdownTick s).captures = s.captures
    ∧ (countdownTick s).scanQuality = s.scanQuality
    ∧ (countdownTick s).lastCapturedPose = s.lastCapturedPose
    ∧ (countdownTick s).lastAutoCaptureAt = s.lastAutoCaptureAt := by
  unfold countdownTick
  cases hv : s.autoCountdown with
  | none => exact ⟨rfl, rfl, rfl, rfl⟩
  | some v =>
    dsimp only
    split_ifs <;> exact ⟨rfl, rfl, rfl, rfl⟩

/-- The countdown-zero effect does nothing unless the countdown is at 0. -/
theorem countdownZero_skip (s : ScanState) (now : Int) (id : String)
    (h : s.autoCountdown ≠ some 0) :
    countdownZero s now id = s := by
  unfold countdownZero
  rw [if_pos h]

/-- At the 3-item budget the countdown-zero effect only resets to idle. -/
theorem countdownZero_of_budget (s : ScanState) (now : Int) (id : String)
    (h0 : s.autoCountdown = some 0) (h : 3 ≤ s.captures.length) :
    countdownZero s now id = { s with autoCountdown := none } := by
  unfold countdownZero
  rw [if_neg (by simp [h0]), if_pos (Or.inr h)]

/-- When the current pose repeats the last captured pose, the
countdown-zero effect only resets to idle. -/
theorem countdownZero_of_pose (s : ScanState) (now : Int) (id : String)
    (h0 : s.autoCountdown = some 0)
    (hp : s.scanQuality.pose ≠ Pose.unknown ∧ s.scanQuality.pose = s.lastCapturedPose) :
    countdownZero s now id = { s with autoCountdown := none } := by
  unfold countdownZero
  rw [if_neg (by simp [h0])]
  split_ifs with ha hb hc
  any_goals rfl
  all_goals exact absurd hp hc

/-- One front-pose step preserves the front-pose deadlock invariant. -/
theorem stepPreserve_front {s t : ScanState}
    (hstep : ScanStep (fun q => q.pose = Pose.front) (fun _ => True) s t)
    (h1 : s.autoCountdown = none) (h2 : s.scanQuality.pose = Pose.front)
    (h3 : s.lastCapturedPose = Pose.front) :
    t.autoCountdown = none ∧ t.captures = s.captures
    ∧ t.scanQuality.pose = Pose.front ∧ t.lastCapturedPose = Pose.front := by
  cases hstep with
  | sample hq => exact ⟨h1, rfl, hq, h3⟩
  | @gate now hT =>
    have hf := entryGate_fields s now
    refine ⟨entryGate_none_of_pose s now (by rw [h2]; simp) (h2.trans h3.symm), hf.1, ?_, ?_⟩
    · rw [hf.2.1]
      exact h2
    · rw [hf.2.2.1]
      exact h3
  | tickDown =>
    rw [countdownTick_none s h1]
    exact ⟨h1, rfl, h2, h3⟩
  | @zero now id hT =>
    rw [countdownZero_skip s now id (by rw [h1]; simp)]
    exact ⟨h1, rfl, h2, h3⟩

/-- One in-cooldown step preserves the idle invariant. -/
theorem stepPreserve_cooldown {L0 : Int} {s t : ScanState}
    (hstep : ScanStep (fun _ => True) (fun n => n ≤ L0 + 2500) s t)
    (h1 : s.autoCountdown = none) (h2 : s.lastAutoCaptureAt = L0) :
    t.autoCountdown = none ∧ t.lastAutoCaptureAt = L0 ∧ t.captures = s.captures := by
  cases hstep with
  | sample hq => exact ⟨h1, h2, rfl⟩
  | @gate now hT =>
    have hf := entryGate_fields s now
    refine ⟨entryGate_none_of_cooldown s now h1 (by rw [h2]; omega), ?_, hf.1⟩
    rw [hf.2.2.2]
    exact h2
  | tickDown =>
    rw [countdownTick_none s h1]
    exact ⟨h1, h2, rfl⟩
  | @zero now id hT =>
    rw [countdownZero_skip s now id (by rw [h1]; simp)]
    exact ⟨h1, h2, rfl⟩

/-- One step from a state at the 3-item budget never changes the
capture list. -/
theorem stepPreserve_budget {s t : ScanState}
    (hstep : ScanStep (fun _ => True) (fun _ => True) s t)
    (h : 3 ≤ s.captures.length) :
    t.captures = s.captures := by
  cases hstep with
  | sample hq => rfl
  | @gate now hT => exact (entryGate_fields s now).1
  | tickDown => exact (countdownTick_fields s).1
  | @zero now id hT =>
    by_cases h0 : s.autoCountdown = some 0
    · rw [countdownZero_of_budget s now id h0 h]
    · rw [countdownZero_skip s now id h0]

/-- C3: with `lastCapturedPose = front` and every incoming sample
front-posed, no run of the machinery from an idle state ever starts a
countdown or captures; more generally a known pose equal to
`lastCapturedPose` blocks both the countdown-start step and the
countdown-zero capture. -/
theorem auto_capture_pose_rotation :
    (∀ s0 s : ScanState, s0.scanQuality.pose = Pose.front →
      s0.lastCapturedPose = Pose.front → s0.autoCountdown = none →
      Relation.ReflTransGen (ScanStep (fun q => q.pose = Pose.front) (fun _ => True)) s0 s →
      s.autoCountdown = none ∧ s.captures = s0.captures
      ∧ s.scanQuality.pose = Pose.front ∧ s.lastCapturedPose = Pose.front)
    ∧ (∀ (s : ScanState) (now : Int), s.scanQuality.pose ≠ Pose.unknown →
        s.scanQuality.pose = s.lastCapturedPose →
        (entryGate s now).autoCountdown = none)
    ∧ (∀ (s : ScanState) (now : Int) (id : String), s.autoCountdown = some 0 →
        s.scanQuality.pose ≠ Pose.unknown → s.scanQuality.pose = s.lastCapturedPose →
        countdownZero s now id = { s with autoCountdown := none }) := by
  refine ⟨?_, ?_, ?_⟩
  · intro s0 s h2 h3 h1 h
    induction h with
    | refl => exact ⟨h1, rfl, h2, h3⟩
    | tail hrt hstep ih =>
      obtain ⟨i1, i2, i3, i4⟩ := ih
      obtain ⟨j1, j2, j3, j4⟩ := stepPreserve_front hstep i1 i3 i4
      exact ⟨j1, j2.trans i2, j3, j4⟩
  · intro s now h1 h2
    exact entryGate_none_of_pose s now h1 h2
  · intro s now id h0 h1 h2
    exact countdownZero_of_pose s now id h0 ⟨h1, h2⟩

/-- C3 witness: one entry-gate tick on a good front-pose sample with
`lastCapturedPose = front` leaves the machine idle and captureless. -/
theorem auto_capture_pose_rotation_witness :
    (entryGate sC3 5000).autoCountdown = none
    ∧ (entryGate sC3 5000).captures = sC3.captures :=
  ⟨(auto_capture_pose_rotation.1 sC3 (entryGate sC3 5000) rfl rfl rfl
      (Relation.ReflTransGen.single (ScanStep.gate trivial))).1,
   (auto_capture_pose_rotation.1 sC3 (entryGate sC3 5000) rfl rfl rfl
      (Relation.ReflTransGen.single (ScanStep.gate trivial))).2.1⟩

/-- C4: starting idle right after a capture, as long as every tick
happens at most 2500 ms after `lastAutoCaptureAt`, no countdown starts
and nothing is captured, however good the samples are. -/
theorem cooldown_blocks_restart (s0 s : ScanState)
    (h1 : s0.autoCountdown = none)
    (h : Relation.ReflTransGen
      (ScanStep (fun _ => True) (fun n => n ≤ s0.lastAutoCaptureAt + 2500)) s0 s) :
    s.autoCountdown = none ∧ s.lastAutoCaptureAt = s0.lastAutoCaptureAt
    ∧ s.captures = s0.captures := by
  induction h with
  | refl => exact ⟨h1, rfl, rfl⟩
  | tail hrt hstep ih =>
    obtain ⟨i1, i2, i3⟩ := ih
    obtain ⟨j1, j2, j3⟩ := stepPreserve_cooldown hstep i1 i2
    exact ⟨j1, j2, j3.trans i3⟩

/-- C4 witness: 2000 ms after a capture, a perfect-quality fresh-pose
tick still starts no countdown. -/
theorem cooldown_blocks_restart_witness :
    (entryGate sC4 12000).autoCountdown = none :=
  (cooldown_blocks_restart sC4 (entryGate sC4 12000) rfl
    (Relation.ReflTransGen.single (ScanStep.gate (by norm_num [sC4])))).1

/-- C5: with 3 or more captures the entry gate never starts a countdown,
a countdown reaching zero only resets to idle without capturing, and no
run of the machinery ever changes the capture list. -/
theorem budget_blocks_auto_capture :
    (∀ (s : ScanState) (now : Int), 3 ≤ s.captures.length →
      (entryGate s now).autoCountdown = none ∧ (entryGate s now).captures = s.captures)
    ∧ (∀ (s : ScanState) (now : Int) (id : String), 3 ≤ s.captures.length →
        s.autoCountdown = some 0 →
        countdownZero s now id = { s with autoCountdown := none })
    ∧ (∀ s0 s : ScanState, 3 ≤ s0.captures.length →
        Relation.ReflTransGen (ScanStep (fun _ => True) (fun _ => True)) s0 s →
        s.captures = s0.captures) := by
  refine ⟨?_, ?_, ?_⟩
  · intro s now h
    exact ⟨entryGate_none_of_budget s now h, (entryGate_fields s now).1⟩
  · intro s now id h h0
    exact countdownZero_of_budget s now id h0 h
  · intro s0 s h htrace
    induction htrace with
    | refl => rfl
    | tail hrt hstep ih =>
      rw [stepPreserve_budget hstep (by rw [ih]; exact h)]
      exact ih

/-- C5 witness: at exactly 3 captures with perfect quality, the gate
starts nothing and a countdown at zero just resets. -/
theorem budget_blocks_auto_capture_witness :
    (entryGate sC5 9999).autoCountdown = none
    ∧ countdownZero sC5 9999 "w" = { sC5 with autoCountdown := none } :=
  ⟨(budget_blocks_auto_capture.1 sC5 9999 (by simp [sC5, caps3])).1,
   budget_blocks_auto_capture.2.1 sC5 9999 "w" (by simp [sC5, caps3]) rfl⟩

/-- C2 counterexample: in `sC2` the countdown is at zero, quality is
good, the pose is fresh, but only 1000 ms ≤ 2500 ms have passed since
`lastAutoCaptureAt` — condition (3) fails, yet the countdown-zero effect
captures anyway and stamps `lastAutoCaptureAt`.  The cooldown is not
re-validated at zero. -/
theorem zero_effect_ignores_cooldown :
    ¬(2500 < (1000 : Int) - sC2.lastAutoCaptureAt)
    ∧ (countdownZero sC2 1000 "z").captures.length = sC2.captures.length + 1
    ∧ (countdownZero sC2 1000 "z").lastAutoCaptureAt = 1000 := by
  have heq : countdownZero sC2 1000 "z" =
      captureFromCamera { sC2 with lastAutoCaptureAt := 1000, autoCountdown := none } "z" := by
    unfold countdownZero
    rw [if_neg (by simp [sC2]), if_neg (by simp [sC2]),
      if_neg (by norm_num [sC2, qGoodLeft]), if_neg (by simp [sC2, qGoodLeft])]
  refine ⟨by norm_num [sC2], ?_, ?_⟩
  · rw [heq]
    simp [captureFromCamera, sC2]
  · rw [heq]
    rfl

/-- C2 amended: on reaching zero the effect re-validates enablement, the
3-item budget and conditions (1) (good score, no warnings) and (2)
(fresh pose); any failure resets to idle with no capture.  If those
hold it captures, stamps `lastAutoCaptureAt := now`, records
`lastCapturedPose` and resets to idle — without re-checking the
cooldown condition (3): the final conjunct holds for every `now`. -/
theorem zero_effect_revalidation (s : ScanState) (now : Int) (id : String)
    (h0 : s.autoCountdown = some 0) :
    ((¬(s.autoCapture = true ∧ s.cameraOn = true ∧ s.step = 1) ∨ 3 ≤ s.captures.length) →
      countdownZero s now id = { s with autoCountdown := none })
    ∧ (s.autoCapture = true ∧ s.cameraOn = true ∧ s.step = 1 → s.captures.length < 3 →
        (¬(0.78 ≤ s.scanQuality.score ∧ s.scanQuality.warnings.length = 0) →
          countdownZero s now id = { s with autoCountdown := none })
        ∧ (0.78 ≤ s.scanQuality.score ∧ s.scanQuality.warnings.length = 0 →
            (s.scanQuality.pose ≠ Pose.unknown ∧ s.scanQuality.pose = s.lastCapturedPose →
              countdownZero s now id = { s with autoCountdown := none })
            ∧ (¬(s.scanQuality.pose ≠ Pose.unknown ∧
                  s.scanQuality.pose = s.lastCapturedPose) →
                countdownZero s now id =
                  captureFromCamera
                    { s with lastAutoCaptureAt := now, autoCountdown := none } id))) := by
  constructor
  · intro h
    unfold countdownZero
    rw [if_neg (by simp [h0]), if_pos h]
  · intro hen hbud
    have hno : ¬(¬(s.autoCapture = true ∧ s.cameraOn = true ∧ s.step = 1) ∨
        3 ≤ s.captures.length) :=
      fun hor => hor.elim (fun h1 => h1 hen) (fun h2 => absurd h2 (by omega))
    constructor
    · intro hbad
      unfold countdownZero
      rw [if_neg (by simp [h0]), if_neg hno, if_pos hbad]
    · intro hgood
      constructor
      · intro hp
        unfold countdownZero
        rw [if_neg (by simp [h0]), if_neg hno, if_neg (not_not_intro hgood), if_pos hp]
      · intro hp
        unfold countdownZero
        rw [if_neg (by simp [h0]), if_neg hno, if_neg (not_not_intro hgood), if_neg hp]

/-- C2 witness: at `sC2` the validated branch captures, stamping the new
`lastAutoCaptureAt` even though the cooldown had not elapsed. -/
theorem zero_effect_revalidation_witness :
    countdownZero sC2 1000 "z" =
      captureFromCamera { sC2 with lastAutoCaptureAt := 1000, autoCountdown := none } "z" :=
  (((zero_effect_revalidation sC2 1000 "z" rfl).2 (by simp [sC2]) (by simp [sC2])).2
    (by norm_num [sC2, qGoodLeft])).2 (by simp [sC2, qGoodLeft])

/-- When the bottom-bound clamp does not fire on a pushed box, the box
lies at least `boxH + gap` below its predecessor. -/
theorem placeY_ge (env : LayoutEnv) (l a : ℚ)
    (h : placeY env (some l) a < env.canvasH - boxH - margin) :
    l + boxH + gap ≤ placeY env (some l) a := by
  simp only [placeY] at h ⊢
  split_ifs at h ⊢ with h1 h2 <;> linarith

/-- Greedy placement below a previous box at `l`: if every produced box
stays strictly above the bottom bound, the boxes are pairwise disjoint
and all lie at least `boxH + gap` below `l`. -/
theorem placeColumnGo_sep (env : LayoutEnv) (side : Side) :
    ∀ (items : List Callout) (l : ℚ),
      (∀ b ∈ placeColumnGo env side (some l) items,
        b.yTop < env.canvasH - boxH - margin) →
      List.Pairwise vDisjoint (placeColumnGo env side (some l) items)
      ∧ ∀ b ∈ placeColumnGo env side (some l) items, l + boxH + gap ≤ b.yTop := by
  have hBH : boxH = 28 := rfl
  have hG : gap = 8 := rfl
  intro items
  induction items with
  | nil =>
    intro l h
    exact ⟨List.Pairwise.nil, by simp [placeColumnGo]⟩
  | cons c rest ih =>
    intro l h
    simp only [placeColumnGo] at h ⊢
    have hhead : placeY env (some l) c.anchorY < env.canvasH - boxH - margin :=
      h _ (List.mem_cons_self _ _)
    have htail : ∀ b ∈ placeColumnGo env side (some (placeY env (some l) c.anchorY)) rest,
        b.yTop < env.canvasH - boxH - margin :=
      fun b hb => h b (List.mem_cons_of_mem _ hb)
    have hge := placeY_ge env l c.anchorY hhead
    obtain ⟨p1, p2⟩ := ih (placeY env (some l) c.anchorY) htail
    refine ⟨List.pairwise_cons.mpr ⟨?_, p1⟩, ?_⟩
    · intro b hb
      have hb2 := p2 b hb
      left
      simp only
      linarith
    · intro b hb
      rcases List.mem_cons.mp hb with hb1 | hb2
      · rw [hb1]
        exact hge
      · have := p2 b hb2
        linarith

/-- C1 amended: within a column the placed boxes' vertical intervals
`[yTop, yTop + boxH]` are pairwise disjoint provided every box after the
first lies strictly above the bottom bound `canvasH - boxH - margin`.
When anchors crowd the bottom edge the final bottom-bound clamp (which
moves a pushed box back up) can instead place a box exactly on top of
the previous one, so the unconditional claim fails (see the
counterexample). -/
theorem callout_column_disjoint (env : LayoutEnv) (side : Side) (items : List Callout)
    (h : ∀ b ∈ (placeColumn env side (sortCallouts items)).tail,
        b.yTop < env.canvasH - boxH - margin) :
    List.Pairwise vDisjoint (placeColumn env side (sortCallouts items)) := by
  revert h
  unfold placeColumn
  cases sortCallouts items with
  | nil =>
    intro h
    simp [placeColumnGo]
  | cons c rest =>
    intro h
    simp only [placeColumnGo] at h ⊢
    have htail : ∀ b ∈ placeColumnGo env side (some (placeY env none c.anchorY)) rest,
        b.yTop < env.canvasH - boxH - margin := fun b hb => h b hb
    obtain ⟨p1, p2⟩ := placeColumnGo_sep env side rest (placeY env none c.anchorY) htail
    refine List.pairwise_cons.mpr ⟨?_, p1⟩
    intro b hb
    have hb2 := p2 b hb
    left
    simp only
    have hBH : boxH = 28 := rfl
    have hG : gap = 8 := rfl
    linarith

/-- C1 counterexample: on a 100 px tall canvas, two callouts anchored at
y = 95 are both clamped to the bottom bound 62 — the second box is
pushed to 98, then the final bottom clamp moves it back onto the first —
so the two vertical intervals coincide instead of being disjoint. -/
theorem callout_column_overlaps_at_bottom :
    ¬ List.Pairwise vDisjoint (placeColumn envShort Side.left (sortCallouts itemsShort)) := by
  norm_num [placeColumn, placeColumnGo, placeY, clampTop, sortCallouts, List.insertionSort,
    List.orderedInsert, envShort, itemsShort, vDisjoint, boxH, gap, margin, max_def, min_def]

/-- C1 witness: on a tall canvas whose boxes all stay above the bottom
bound, the placed column is pairwise disjoint. -/
theorem callout_column_disjoint_witness :
    List.Pairwise vDisjoint (placeColumn envTall Side.left (sortCallouts itemsTall)) :=
  callout_column_disjoint envTall Side.left itemsTall (by
    norm_num [placeColumn, placeColumnGo, placeY, clampTop, sortCallouts, List.insertionSort,
      List.orderedInsert, envTall, itemsTall, boxH, gap, margin, max_def, min_def])

/-- The centroid weight accumulator is a sum of nonnegative terms. -/
theorem centroidW_nonneg (tw th : Nat) (alpha : Nat → Nat → Nat) (minA : Nat) :
    0 ≤ centroidW tw th alpha minA := by
  unfold centroidW
  refine Finset.sum_nonneg fun p _ => ?_
  split_ifs
  · positivity
  · exact le_refl 0

/-- The alpha threshold is at least 40, hence at least 1. -/
theorem one_le_heatThresh (tw th : Nat) (alpha : Nat → Nat → Nat) :
    1 ≤ heatThresh tw th alpha :=
  le_trans (by norm_num) (le_max_left 40 _)

/-- `centroid(minA)` returns `null` exactly when no sampled
(even-coordinate) pixel reaches `minA`. -/
theorem centroid_eq_none_iff (tw th : Nat) (alpha : Nat → Nat → Nat) (minA : Nat)
    (hm : 1 ≤ minA) :
    centroid tw th alpha minA = none ↔
      ∀ p ∈ evenGrid tw th, alpha p.1 p.2 < minA := by
  unfold centroid
  constructor
  · intro h
    by_cases hW : centroidW tw th alpha minA ≤ 0
    · have hW0 : centroidW tw th alpha minA = 0 :=
        le_antisymm hW (centroidW_nonneg tw th alpha minA)
      unfold centroidW at hW0
      have hz := (Finset.sum_eq_zero_iff_of_nonneg fun p _ => by
        split_ifs
        · positivity
        · exact le_refl (0 : ℚ)).mp hW0
      intro p hp
      by_contra hlt
      push_neg at hlt
      have ht := hz p hp
      rw [if_pos hlt] at ht
      have : alpha p.1 p.2 = 0 := by exact_mod_cast ht
      omega
    · rw [if_neg hW] at h
      exact absurd h (by simp)
  · intro hall
    have hW : centroidW tw th alpha minA = 0 := by
      unfold centroidW
      exact Finset.sum_eq_zero fun p hp => by
        rw [if_neg (not_le.mpr (hall p hp))]
    rw [if_pos (le_of_eq hW)]

/-- `centroid(minA)` succeeds when some sampled pixel reaches `minA`. -/
theorem centroid_eq_some (tw th : Nat) (alpha : Nat → Nat → Nat) (minA : Nat)
    (hm : 1 ≤ minA) (h : ∃ p ∈ evenGrid tw th, minA ≤ alpha p.1 p.2) :
    centroid tw th alpha minA =
      some (centroidSX tw th alpha minA / centroidW tw th alpha minA,
            centroidSY tw th alpha minA / centroidW tw th alpha minA) := by
  unfold centroid
  rw [if_neg]
  push_neg
  obtain ⟨p, hp, hpa⟩ := h
  unfold centroidW
  refine Finset.sum_pos' (fun q _ => ?_) ⟨p, hp, ?_⟩
  · split_ifs
    · positivity
    · exact le_refl (0 : ℚ)
  · rw [if_pos hpa]
    have h1 : 0 < alpha p.1 p.2 := by omega
    exact_mod_cast h1

/-- A sampled pixel with positive alpha forces `maxA > 0`. -/
theorem maxAlpha_pos (tw th : Nat) (alpha : Nat → Nat → Nat)
    (h : ∃ p ∈ evenGrid tw th, 0 < alpha p.1 p.2) :
    maxAlpha tw th alpha ≠ 0 := by
  obtain ⟨p, hp, hpa⟩ := h
  have hsub : p ∈ Finset.range tw ×ˢ Finset.range th := by
    unfold evenGrid at hp
    exact (Finset.mem_filter.mp hp).1
  have hle := @Finset.le_sup ℕ (ℕ × ℕ) _ _ (Finset.range tw ×ˢ Finset.range th)
    (fun q : ℕ × ℕ => alpha q.1 q.2) p hsub
  unfold maxAlpha
  simp only at hle
  omega

/-- `maxA = 0` means every pixel of the image is fully transparent. -/
theorem maxAlpha_eq_zero (tw th : Nat) (alpha : Nat → Nat → Nat)
    (h : maxAlpha tw th alpha = 0) :
    ∀ p ∈ evenGrid tw th, alpha p.1 p.2 = 0 := by
  intro p hp
  have hsub : p ∈ Finset.range tw ×ˢ Finset.range th := by
    unfold evenGrid at hp
    exact (Finset.mem_filter.mp hp).1
  have hle := @Finset.le_sup ℕ (ℕ × ℕ) _ _ (Finset.range tw ×ˢ Finset.range th)
    (fun q : ℕ × ℕ => alpha q.1 q.2) p hsub
  unfold maxAlpha at h
  simp only at hle
  omega

/-- `heatmapAnchor` returns `null` exactly when every alpha on the
sampled even-coordinate grid is zero. -/
theorem heatmapAnchor_eq_none_iff (tw th : Nat) (alpha : Nat → Nat → Nat) (W H : ℚ) :
    heatmapAnchor tw th alpha W H = none ↔
      ∀ p ∈ evenGrid tw th, alpha p.1 p.2 = 0 := by
  unfold heatmapAnchor
  by_cases hmax : maxAlpha tw th alpha = 0
  · rw [if_pos hmax]
    exact ⟨fun _ => maxAlpha_eq_zero tw th alpha hmax, fun _ => rfl⟩
  · rw [if_neg hmax]
    constructor
    · intro h
      cases hct : centroid tw th alpha (heatThresh tw th alpha) with
      | some c =>
        rw [hct] at h
        exact absurd h (by simp [Option.orElse])
      | none =>
        rw [hct] at h
        cases hc1 : centroid tw th alpha 1 with
        | some c =>
          rw [hc1] at h
          exact absurd h (by simp [Option.orElse])
        | none =>
          intro p hp
          have := (centroid_eq_none_iff tw th alpha 1 le_rfl).mp hc1 p hp
          omega
    · intro hall
      have hthr := one_le_heatThresh tw th alpha
      have h1 : centroid tw th alpha (heatThresh tw th alpha) = none :=
        (centroid_eq_none_iff tw th alpha _ hthr).mpr fun p hp => by
          rw [hall p hp]
          omega
      have h2 : centroid tw th alpha 1 = none :=
        (centroid_eq_none_iff tw th alpha 1 le_rfl).mpr fun p hp => by
          rw [hall p hp]
          norm_num
      rw [h1, h2]
      rfl

/-- When a sampled pixel clears the primary threshold, the anchor is the
scaled threshold-centroid. -/
theorem heatmapAnchor_primary (tw th : Nat) (alpha : Nat → Nat → Nat) (W H : ℚ)
    (h : ∃ p ∈ evenGrid tw th, heatThresh tw th alpha ≤ alpha p.1 p.2) :
    heatmapAnchor tw th alpha W H =
      (centroid tw th alpha (heatThresh tw th alpha)).map (anchorScale tw th W H) := by
  have hthr := one_le_heatThresh tw th alpha
  have hmax : maxAlpha tw th alpha ≠ 0 := by
    obtain ⟨p, hp, hpa⟩ := h
    exact maxAlpha_pos tw th alpha ⟨p, hp, by omega⟩
  have hsome := centroid_eq_some tw th alpha _ hthr h
  unfold heatmapAnchor
  rw [if_neg hmax, hsome]
  rfl

/-- When no sampled pixel clears the primary threshold but one has
nonzero alpha, the anchor falls back to the scaled minA = 1 centroid. -/
theorem heatmapAnchor_fallback (tw th : Nat) (alpha : Nat → Nat → Nat) (W H : ℚ)
    (h1 : ∃ p ∈ evenGrid tw th, 0 < alpha p.1 p.2)
    (h2 : ∀ p ∈ evenGrid tw th, alpha p.1 p.2 < heatThresh tw th alpha) :
    heatmapAnchor tw th alpha W H =
      (centroid tw th alpha 1).map (anchorScale tw th W H) := by
  have hmax := maxAlpha_pos tw th alpha h1
  have hnone : centroid tw th alpha (heatThresh tw th alpha) = none :=
    (centroid_eq_none_iff tw th alpha _ (one_le_heatThresh tw th alpha)).mpr h2
  obtain ⟨p, hp, hpa⟩ := h1
  have hsome := centroid_eq_some tw th alpha 1 le_rfl ⟨p, hp, by omega⟩
  unfold heatmapAnchor
  rw [if_neg hmax, hnone, hsome]
  rfl

/-- C8 amended: thresholding and fallback behave as claimed but only
over the step-2 sampled (even-coordinate) grid: the anchor is the scaled
weighted centroid of sampled pixels clearing
`max(40, round(0.55 * maxAlpha))`, falling back to the sampled pixels
with nonzero alpha; and no anchor is returned exactly when every
**sampled** alpha is zero — which can happen with nonzero alphas at odd
coordinates (see the counterexample), not only on an all-zero image. -/
theorem heatmap_anchor_centroid (tw th : Nat) (alpha : Nat → Nat → Nat) (W H : ℚ) :
    (heatmapAnchor tw th alpha W H = none ↔
      ∀ p ∈ evenGrid tw th, alpha p.1 p.2 = 0)
    ∧ ((∃ p ∈ evenGrid tw th, heatThresh tw th alpha ≤ alpha p.1 p.2) →
        heatmapAnchor tw th alpha W H =
          (centroid tw th alpha (heatThresh tw th alpha)).map (anchorScale tw th W H))
    ∧ ((∃ p ∈ evenGrid tw th, 0 < alpha p.1 p.2) →
        (∀ p ∈ evenGrid tw th, alpha p.1 p.2 < heatThresh tw th alpha) →
        heatmapAnchor tw th alpha W H =
          (centroid tw th alpha 1).map (anchorScale tw th W H))
    ∧ (∀ (id : String) (fa : FaceAnchors),
        heatmapAnchor tw th alpha W H = none →
        metricAnchor (heatmapAnchor tw th alpha W H) id fa =
          metricAnchor none id fa) :=
  ⟨heatmapAnchor_eq_none_iff tw th alpha W H,
   fun h => heatmapAnchor_primary tw th alpha W H h,
   fun h1 h2 => heatmapAnchor_fallback tw th alpha W H h1 h2,
   fun id fa h => by rw [h]⟩

/-- C8 counterexample: a 160×1 heatmap whose only opaque pixel (alpha
255) sits at the odd column x = 1 yields no anchor — the step-2 sampling
never visits it — although not every alpha value is zero. -/
theorem heatmap_anchor_null_despite_nonzero :
    heatmapAnchor 160 1 alphaOddCE 720 720 = none ∧ alphaOddCE 1 0 = 255 := by
  constructor
  · refine (heatmapAnchor_eq_none_iff 160 1 alphaOddCE 720 720).mpr ?_
    intro p hp
    unfold evenGrid at hp
    obtain ⟨hmem, hx, hy⟩ := Finset.mem_filter.mp hp
    simp only [alphaOddCE]
    rw [if_neg (by omega : ¬ p.1 = 1)]
  · rfl

/-- C8 witness: a faint (alpha 10) pixel at the origin misses the
threshold 40 but triggers the nonzero-alpha fallback centroid. -/
theorem heatmap_anchor_centroid_witness :
    heatmapAnchor 160 1 alphaDim 320 2 =
      (centroid 160 1 alphaDim 1).map (anchorScale 160 1 320 2) := by
  have hmem : ((0, 0) : ℕ × ℕ) ∈ evenGrid 160 1 := by
    unfold evenGrid
    rw [Finset.mem_filter, Finset.mem_product]
    exact ⟨⟨Finset.mem_range.mpr (by norm_num), Finset.mem_range.mpr (by norm_num)⟩,
      by norm_num⟩
  have hm : maxAlpha 160 1 alphaDim = 10 := by
    have key : (Finset.range 160 ×ˢ Finset.range 1).sup
        (fun p : ℕ × ℕ => alphaDim p.1 p.2) = 10 := by
      refine le_antisymm ?_ ?_
      · exact Finset.sup_le fun p hp => by
          simp only [alphaDim]
          split <;> omega
      · have h : ((0, 0) : Nat × Nat) ∈ Finset.range 160 ×ˢ Finset.range 1 := by
          rw [Finset.mem_product]
          exact ⟨Finset.mem_range.mpr (by norm_num), Finset.mem_range.mpr (by norm_num)⟩
        have hle := @Finset.le_sup ℕ (ℕ × ℕ) _ _ (Finset.range 160 ×ˢ Finset.range 1)
          (fun p : ℕ × ℕ => alphaDim p.1 p.2) ((0, 0) : ℕ × ℕ) h
        simpa [alphaDim] using hle
    exact key
  have hthr : heatThresh 160 1 alphaDim = 40 := by
    unfold heatThresh
    rw [hm]
    norm_num [jsRound]
  refine (heatmap_anchor_centroid 160 1 alphaDim 320 2).2.2.1 ?_ ?_
  · exact ⟨(0, 0), hmem, by norm_num [alphaDim]⟩
  · intro p hp
    rw [hthr]
    simp only [alphaDim]
    split <;> omega

end Ski
